import Mathlib

/-!
Shallow embedding of the dropshipping order-routing, connector-management and
tracking subsystem of the `backend-hypetotal` repository
(`src/src/services/order_routing_service.py`, `src/src/services/tracking_service.py`,
`src/src/models/connector_manager.py`, `src/src/models/connector_base.py`).

Python floats (prices, shipping costs, scores) are modelled as rationals `ℚ`;
Python's stable `list.sort(key=...)` is modelled by `List.insertionSort` with the
key-based `≤` relation (any two stable sorts by the same key agree, so this is
faithful); Python dicts (insertion-ordered) are modelled as association lists;
Python exceptions are modelled with `Except`.
-/

namespace HypeTotal

/-- Supplier DB record (fields of `src/src/models/supplier.py` used by the services). -/
structure Supplier where
  id : Nat
  name : String
  shipping_cost : ℚ
  shipping_time_min_days : ℚ
  shipping_time_max_days : ℚ
  tracking_api_endpoint : Option String
deriving DecidableEq, Repr

/-- Product DB record (fields used by the routing service); `supplier` is the
resolved ORM relationship for `supplier_id`. -/
structure ProductRec where
  is_dropshipping : Bool
  supplier_id : Option Nat
  supplier : Supplier
  supplier_product_id : Option String
deriving DecidableEq, Repr

/-- Order item DB record; `product` is the resolved ORM relationship. -/
structure OrderItemRec where
  price : ℚ
  quantity : Nat
  product : ProductRec
deriving DecidableEq, Repr

/-- Parent order DB record (fields used by the services). -/
structure OrderRec where
  id : Nat
  items : List OrderItemRec
  status : String
  is_dropshipping_order : Bool
deriving DecidableEq, Repr

/-- `SupplierProduct` DB record (fields used by `_analyze_order_items`). -/
structure SupplierProductRec where
  supplier_id : Nat
  supplier_sku : Option String
  supplier_weight : Option ℚ
deriving DecidableEq, Repr

/-- `DropshippingOrder` DB record (fields used by routing and tracking);
`supplier` is the resolved ORM relationship. -/
structure DropshippingOrderRec where
  id : Nat
  order_id : Nat
  supplier_id : Nat
  supplier : Supplier
  supplier_order_id : Option String
  supplier_status : String
  tracking_number : Option String
deriving DecidableEq, Repr

/-- The database state visible to the services. -/
structure DB where
  orders : List OrderRec
  supplier_products : List SupplierProductRec
  dropshipping_orders : List DropshippingOrderRec
  next_ds_id : Nat
deriving DecidableEq, Repr

/-- `Order.query.get(order_id)`. -/
def findOrder (db : DB) (order_id : Nat) : Option OrderRec :=
  db.orders.find? (fun o => o.id == order_id)

/-- Python truthiness of a nullable integer column (`None` and `0` are falsy). -/
def supplierIdTruthy : Option Nat → Bool
  | none => false
  | some n => n != 0

/-- The per-item entry appended to a supplier group by `_analyze_order_items`. -/
structure GroupItem where
  order_item : OrderItemRec
  product : ProductRec
  quantity : Nat
  unit_price : ℚ
  total_price : ℚ
deriving DecidableEq, Repr

/-- One value of the `suppliers_involved` dict built by `_analyze_order_items`;
`hybrid_score` models the key added later by `_route_hybrid` (absent = `none`). -/
structure SupplierGroup where
  supplier : Supplier
  items : List GroupItem
  total_value : ℚ
  total_quantity : Nat
  estimated_shipping_days : ℚ
  hybrid_score : Option ℚ := none
deriving DecidableEq, Repr

/-- The `analysis` dict built by `_analyze_order_items`; `suppliers_involved`
is insertion-ordered like a Python dict. -/
structure Analysis where
  total_items : Nat
  dropshipping_items : List OrderItemRec
  regular_items : List OrderItemRec
  suppliers_involved : List (Nat × SupplierGroup)
  total_value : ℚ
  total_weight : ℚ
  requires_special_handling : Bool
deriving DecidableEq, Repr

/-- Membership test `supplier_id in analysis['suppliers_involved']`. -/
def hasGroup (l : List (Nat × SupplierGroup)) (sid : Nat) : Bool :=
  l.any (fun e => e.1 == sid)

/-- In-place update of the dict entry for key `sid` (Python dict update keeps
the key's position). -/
def updateGroupEntry (l : List (Nat × SupplierGroup)) (sid : Nat)
    (f : SupplierGroup → SupplierGroup) : List (Nat × SupplierGroup) :=
  l.map (fun e => if e.1 == sid then (e.1, f e.2) else e)

/-- `SupplierProduct.query.filter_by(supplier_id=..., supplier_sku=...).first()`. -/
def findSupplierProduct (db : DB) (sid : Nat) (sku : Option String) :
    Option SupplierProductRec :=
  db.supplier_products.find? (fun sp => sp.supplier_id == sid && sp.supplier_sku == sku)

/-- The condition `product.is_dropshipping and product.supplier_id` of
`_analyze_order_items` (Python truthiness on the nullable foreign key). -/
def itemEligible (i : OrderItemRec) : Bool :=
  i.product.is_dropshipping && supplierIdTruthy i.product.supplier_id

/-- The dropshipping branch of the `_analyze_order_items` loop body: create the
supplier group on first sight, append the item entry and update the group
totals, accumulate the estimated weight, and record the item as dropshipping. -/
def analyzeStepEligible (db : DB) (a : Analysis) (item : OrderItemRec) (sid : Nat) :
    Analysis :=
  let a :=
    if hasGroup a.suppliers_involved sid then a
    else { a with suppliers_involved := a.suppliers_involved ++
      [(sid, { supplier := item.product.supplier, items := [], total_value := 0,
               total_quantity := 0, estimated_shipping_days := 0 })] }
  let gi : GroupItem :=
    { order_item := item, product := item.product, quantity := item.quantity,
      unit_price := item.price, total_price := item.price * (item.quantity : ℚ) }
  let a := { a with suppliers_involved :=
    updateGroupEntry a.suppliers_involved sid (fun g =>
      { g with items := g.items ++ [gi],
               total_value := g.total_value + item.price * (item.quantity : ℚ),
               total_quantity := g.total_quantity + item.quantity }) }
  let a :=
    match findSupplierProduct db sid item.product.supplier_product_id with
    | some sp =>
      match sp.supplier_weight with
      | some w =>
        -- Python: `if supplier_product and supplier_product.supplier_weight:`
        -- (a weight of 0.0 is falsy)
        if w != 0 then { a with total_weight := a.total_weight + w * (item.quantity : ℚ) }
        else a
      | none => a
    | none => a
  { a with dropshipping_items := a.dropshipping_items ++ [item] }

/-- The loop body of `_analyze_order_items` for one order item. -/
def analyzeStep (db : DB) (a : Analysis) (item : OrderItemRec) : Analysis :=
  let a := { a with total_value := a.total_value + item.price * (item.quantity : ℚ) }
  if itemEligible item then
    analyzeStepEligible db a item (item.product.supplier_id.getD 0)
  else
    { a with regular_items := a.regular_items ++ [item] }

/-- `OrderRoutingService._analyze_order_items`. -/
def analyze_order_items (db : DB) (order : OrderRec) : Analysis :=
  let init : Analysis :=
    { total_items := order.items.length, dropshipping_items := [], regular_items := [],
      suppliers_involved := [], total_value := 0, total_weight := 0,
      requires_special_handling := false }
  let a := order.items.foldl (analyzeStep db) init
  { a with suppliers_involved := a.suppliers_involved.map (fun e =>
      (e.1, { e.2 with estimated_shipping_days :=
        (e.2.supplier.shipping_time_min_days + e.2.supplier.shipping_time_max_days) / 2 })) }

/-- `OrderRoutingService._determine_routing_strategy`. -/
def determine_routing_strategy (a : Analysis) : String :=
  let num_suppliers := a.suppliers_involved.length
  let total_value := a.total_value
  if num_suppliers == 0 then "NO_DROPSHIPPING"
  else if num_suppliers == 1 then "SINGLE_SUPPLIER"
  else if total_value > 1000 then "MULTI_SUPPLIER_SPEED"
  else if total_value < 200 then "MULTI_SUPPLIER_COST"
  else "HYBRID"

/-! Specification-side quantities for claim C1: the number of distinct
dropshipping suppliers among the order's items and the order's total value. -/

/-- The supplier ids of a list of dropshipping-eligible items, in item order
(with multiplicity). -/
def eligIds (items : List OrderItemRec) : List Nat :=
  items.filterMap (fun i =>
    if i.product.is_dropshipping && supplierIdTruthy i.product.supplier_id then
      i.product.supplier_id
    else none)

/-- The supplier ids of the order's dropshipping-eligible items. -/
def eligibleSupplierIds (order : OrderRec) : List Nat :=
  eligIds order.items

/-- The number of distinct dropshipping suppliers among the order's items. -/
def distinctSupplierCount (order : OrderRec) : Nat :=
  (eligibleSupplierIds order).toFinset.card

/-- The order's total value: sum of `price * quantity` over all items. -/
def orderTotalValue (order : OrderRec) : ℚ :=
  (order.items.map (fun i => i.price * (i.quantity : ℚ))).sum

/-- Python's stable `list.sort(key=...)` (ascending). `List.insertionSort` with
the key-based `≤` is stable, and any two stable sorts by the same key agree. -/
def sortByKey {α : Type} (key : α → ℚ) (l : List α) : List α :=
  List.insertionSort (fun a b => key a ≤ key b) l

/-- `OrderRoutingService._route_by_cost`: sort ascending by the supplier's
flat shipping cost. -/
def route_by_cost (groups : List SupplierGroup) : List SupplierGroup :=
  sortByKey (fun s => s.supplier.shipping_cost) groups

/-- `OrderRoutingService._route_by_speed`: sort ascending by the estimated
shipping days. -/
def route_by_speed (groups : List SupplierGroup) : List SupplierGroup :=
  sortByKey (fun s => s.estimated_shipping_days) groups

/-- Python's `max` over a nonempty list (`maxList [] = 0`, but in the source
`max(...)` is only evaluated with at least one group present). -/
def maxList : List ℚ → ℚ
  | [] => 0
  | x :: xs => xs.foldl max x

/-- The hybrid score `_route_hybrid` stores on one group:
`0.6 * (cost / max_cost if max_cost > 0 else 0) + 0.4 * (days / max_time if max_time > 0 else 0)`
with the maxima taken over all groups of the order. -/
def hybridScore (groups : List SupplierGroup) (g : SupplierGroup) : ℚ :=
  let max_cost := maxList (groups.map (fun s => s.supplier.shipping_cost))
  let cost_score : ℚ := if max_cost > 0 then g.supplier.shipping_cost / max_cost else 0
  let max_time := maxList (groups.map (fun s => s.estimated_shipping_days))
  let time_score : ℚ := if max_time > 0 then g.estimated_shipping_days / max_time else 0
  cost_score * (0.6 : ℚ) + time_score * (0.4 : ℚ)

/-- `OrderRoutingService._route_hybrid`: attach the hybrid score to every group,
then sort ascending by `s.get('hybrid_score', 1)`. -/
def route_hybrid (groups : List SupplierGroup) : List SupplierGroup :=
  let scored := groups.map (fun g => { g with hybrid_score := some (hybridScore groups g) })
  sortByKey (fun s => s.hybrid_score.getD 1) scored

/-- `OrderRoutingService._execute_routing_strategy`. In the `SINGLE_SUPPLIER`
branch the source reads `list(analysis['suppliers_involved'].keys())[0]`, which
raises `IndexError` on an empty dict; that case is unreachable because the
strategy is only chosen with exactly one supplier, and is modelled as `[]`. -/
def execute_routing_strategy (a : Analysis) (strategy : String) : List SupplierGroup :=
  if strategy == "NO_DROPSHIPPING" then []
  else if strategy == "SINGLE_SUPPLIER" then
    match a.suppliers_involved with
    | [] => []
    | e :: _ => [e.2]
  else if strategy == "MULTI_SUPPLIER_COST" then
    route_by_cost (a.suppliers_involved.map (fun e => e.2))
  else if strategy == "MULTI_SUPPLIER_SPEED" then
    route_by_speed (a.suppliers_involved.map (fun e => e.2))
  else if strategy == "HYBRID" then
    route_hybrid (a.suppliers_involved.map (fun e => e.2))
  else
    a.suppliers_involved.map (fun e => e.2)

/-- `OrderRoutingService._simulate_supplier_order`'s fictitious supplier order
id `f"{supplier.name[:3].upper()}-{8 random digits}"`; the random digits are
supplied by the oracle `rand` (indexed by the group's dispatch position). -/
def simulatedSupplierOrderId (rand : Nat → String) (k : Nat) (s : Supplier) : String :=
  (s.name.take 3).toUpper ++ "-" ++ rand k

/-- `OrderRoutingService._create_dropshipping_orders`: one `DropshippingOrder`
row per routed supplier group, with `supplier_status='pending'`. Row ids are
the next free ids, mirroring autoincrement assignment at commit. -/
def create_dropshipping_orders (rand : Nat → String) (next_id : Nat)
    (order : OrderRec) (routing_result : List SupplierGroup) : List DropshippingOrderRec :=
  (List.range routing_result.length).zip routing_result |>.map (fun kg =>
    { id := next_id + kg.1, order_id := order.id, supplier_id := kg.2.supplier.id,
      supplier := kg.2.supplier,
      supplier_order_id := some (simulatedSupplierOrderId rand kg.1 kg.2.supplier),
      supplier_status := "pending", tracking_number := none })

/-- A point at which a Python runtime exception can interrupt `route_order`
after the order was loaded (the body runs inside `try: ... except: rollback; raise`).
`dispatchRaise k` is an exception while dispatching/persisting the `k`-th
supplier group; `commitRaise` is a failure of `db.session.commit()` itself. -/
inductive Fault where
  | noFault
  | analyzeRaise
  | dispatchRaise (k : Nat)
  | commitRaise
deriving DecidableEq, Repr

/-- The result dict returned by `route_order` (the `routed_at` timestamp is
omitted from the model). -/
structure RoutingResult where
  order_id : Nat
  routing_strategy : String
  supplier_orders : List SupplierGroup
  dropshipping_orders : List Nat
  total_suppliers : Nat
deriving DecidableEq, Repr

/-- The tail of `route_order`: create the `DropshippingOrder` rows, update the
parent order (`is_dropshipping_order = True`, `status = 'processing'`) and
commit — or roll back if the commit itself raises. -/
def routeOrderCommit (rand : Nat → String) (db : DB) (order_id : Nat) (order : OrderRec)
    (strategy : String) (final_routing : List SupplierGroup) (inj : Fault) :
    Except String RoutingResult × DB :=
  let rows := create_dropshipping_orders rand db.next_ds_id order final_routing
  if inj == Fault.commitRaise then (Except.error "exception during commit", db)
  else
    let db' : DB :=
      { db with
        dropshipping_orders := db.dropshipping_orders ++ rows,
        orders := db.orders.map (fun o =>
          if o.id == order_id then { o with is_dropshipping_order := true, status := "processing" }
          else o),
        next_ds_id := db.next_ds_id + rows.length }
    (Except.ok
      { order_id := order_id, routing_strategy := strategy, supplier_orders := final_routing,
        dropshipping_orders := rows.map (fun r => r.id),
        total_suppliers := final_routing.length }, db')

/-- The body of `route_order` once the order was loaded: analyze, select and
execute the strategy, then dispatch and commit; an injected fault at any point
raises with the committed database unchanged (rollback). -/
def routeOrderLoaded (rand : Nat → String) (db : DB) (order_id : Nat)
    (order : OrderRec) (inj : Fault) : Except String RoutingResult × DB :=
  if inj == Fault.analyzeRaise then (Except.error "exception during analysis", db)
  else
    let analysis := analyze_order_items db order
    let strategy := determine_routing_strategy analysis
    let final_routing := execute_routing_strategy analysis strategy
    match inj with
    | Fault.dispatchRaise k =>
      if k < final_routing.length then (Except.error "exception during dispatch", db)
      else routeOrderCommit rand db order_id order strategy final_routing inj
    | _ => routeOrderCommit rand db order_id order strategy final_routing inj

/-- `OrderRoutingService.route_order`. The whole body runs in
`try: ... db.session.commit() ... except: db.session.rollback(); raise`, so an
exception at any injected fault point leaves the committed database unchanged.
Returns the raised-or-returned value together with the committed database. -/
def route_order (rand : Nat → String) (db : DB) (order_id : Nat) (inj : Fault) :
    Except String RoutingResult × DB :=
  match findOrder db order_id with
  | none => (Except.error "Pedido não encontrado", db)
  | some order => routeOrderLoaded rand db order_id order inj

/-- `OrderRoutingService._calculate_recommendation_score`: a base score of 50
plus strategy/supplier-count/order-value adjustments, clamped to `[0, 100]`. -/
def calculate_recommendation_score (strategy : String)
    (routing_result : List SupplierGroup) (analysis : Analysis) : ℤ :=
  let score : ℤ := 50
  let score := score +
    (if strategy == "SINGLE_SUPPLIER" then 20
     else if strategy == "MULTI_SUPPLIER_SPEED" then 15
     else if strategy == "MULTI_SUPPLIER_COST" then 10
     else if strategy == "HYBRID" then 25
     else 0)
  let score := if routing_result.length > 3 then score - 10 else score
  let total_value := analysis.total_value
  let score :=
    if total_value > 1000 then
      (if strategy == "MULTI_SUPPLIER_SPEED" || strategy == "HYBRID" then score + 10 else score)
    else if total_value < 200 then
      (if strategy == "MULTI_SUPPLIER_COST" || strategy == "SINGLE_SUPPLIER" then score + 10
       else score)
    else score
  max 0 (min 100 score)

/-- One supplier entry of a routing option returned by `get_routing_options`. -/
structure SupplierOptionEntry where
  supplier_id : Nat
  supplier_name : String
  items_count : Nat
  total_value : ℚ
  shipping_cost : ℚ
  estimated_days : ℚ
deriving DecidableEq, Repr

/-- One strategy option returned by `get_routing_options`. -/
structure RoutingOptionEntry where
  strategy_name : String
  suppliers_count : Nat
  suppliers : List SupplierOptionEntry
  total_shipping_cost : ℚ
  estimated_delivery_days : ℚ
  recommendation_score : ℤ
deriving DecidableEq, Repr

/-- The value returned by `get_routing_options` (timestamps omitted);
`routing_options` is the insertion-ordered dict built from the sorted pairs. -/
inductive RoutingOptionsResult where
  | noDropshipping (order_id : Nat)
  | withOptions (order_id : Nat) (options : List (String × RoutingOptionEntry))
      (recommended_strategy : Option String)
deriving DecidableEq, Repr

/-- The candidate strategies evaluated by `get_routing_options`. -/
def optionStrategies : List String :=
  ["SINGLE_SUPPLIER", "MULTI_SUPPLIER_COST", "MULTI_SUPPLIER_SPEED", "HYBRID"]

/-- The option entry `get_routing_options` builds for one strategy. -/
def mkRoutingOption (analysis : Analysis) (strategy : String) : RoutingOptionEntry :=
  let routing_result := execute_routing_strategy analysis strategy
  let total_shipping_cost := (routing_result.map (fun s => s.supplier.shipping_cost)).sum
  let avg_shipping_days :=
    (routing_result.map (fun s => s.estimated_shipping_days)).sum / (routing_result.length : ℚ)
  { strategy_name := strategy, suppliers_count := routing_result.length,
    suppliers := routing_result.map (fun s =>
      { supplier_id := s.supplier.id, supplier_name := s.supplier.name,
        items_count := s.items.length, total_value := s.total_value,
        shipping_cost := s.supplier.shipping_cost,
        estimated_days := s.estimated_shipping_days }),
    total_shipping_cost := total_shipping_cost,
    estimated_delivery_days := avg_shipping_days,
    recommendation_score := calculate_recommendation_score strategy routing_result analysis }

/-- The strategies evaluated for this analysis: all of them, skipping
`SINGLE_SUPPLIER` when more than one supplier is involved. -/
def applicableStrategies (analysis : Analysis) : List String :=
  optionStrategies.filter (fun s =>
    !(s == "SINGLE_SUPPLIER" && analysis.suppliers_involved.length > 1))

/-- The options dict built by the strategy loop of `get_routing_options`. -/
def optionsList (analysis : Analysis) : List (String × RoutingOptionEntry) :=
  (applicableStrategies analysis).map (fun s => (s, mkRoutingOption analysis s))

/-- `sorted(options.items(), key=lambda x: x[1]['recommendation_score'],
reverse=True)` — Python's stable descending sort. -/
def sortedOptionsList (analysis : Analysis) : List (String × RoutingOptionEntry) :=
  List.insertionSort
    (fun a b : String × RoutingOptionEntry =>
      b.2.recommendation_score ≤ a.2.recommendation_score) (optionsList analysis)

/-- The body of `get_routing_options` once the order was loaded. -/
def getRoutingOptionsLoaded (db : DB) (order_id : Nat) (order : OrderRec) :
    Except String RoutingOptionsResult × DB :=
  let analysis := analyze_order_items db order
  if analysis.suppliers_involved.isEmpty then
    (Except.ok (RoutingOptionsResult.noDropshipping order_id), db)
  else
    (Except.ok (RoutingOptionsResult.withOptions order_id (sortedOptionsList analysis)
      (((sortedOptionsList analysis).head?).map (fun e => e.1))), db)

/-- `OrderRoutingService.get_routing_options`: the dry-run variant. It performs
no writes, so it returns the database unchanged alongside the result. -/
def get_routing_options (db : DB) (order_id : Nat) :
    Except String RoutingOptionsResult × DB :=
  match findOrder db order_id with
  | none => (Except.error "Pedido não encontrado", db)
  | some order => getRoutingOptionsLoaded db order_id order

/-! ### Tracking service (`src/src/services/tracking_service.py`) -/

/-- A regex item: a character class with a repetition range `{m,n}`
(a literal is a singleton class with `m = n = 1`). -/
structure REItem where
  cls : Char → Bool
  minRep : Nat
  maxRep : Nat

/-- A fully anchored pattern `^item₁item₂…$` as a sequence of repeated classes
(every entry of `CARRIER_PATTERNS` has this shape). -/
def REPattern := List REItem

/-- Whether `s` matches the anchored pattern: the first item consumes between
`minRep` and `maxRep` characters of its class and the rest matches the remainder. -/
def matchPat : REPattern → List Char → Bool
  | [], s => s.isEmpty
  | it :: rest, s =>
    (List.range (it.maxRep + 1)).any (fun k =>
      it.minRep ≤ k && k ≤ s.length && (s.take k).all it.cls &&
        matchPat rest (s.drop k))

/-- Character class `[A-Z]`. -/
def upperCls (c : Char) : Bool := 'A' ≤ c && c ≤ 'Z'

/-- Character class `\d` (ASCII digits; Python's `\d` also accepts other
Unicode digits, which none of the carrier codes use). -/
def digitCls (c : Char) : Bool := c.isDigit

/-- Character class `[A-Z0-9]`. -/
def upperDigitCls (c : Char) : Bool := upperCls c || digitCls c

/-- A literal character. -/
def litItem (c : Char) : REItem := ⟨fun d => d == c, 1, 1⟩

/-- A class repeated exactly `n` times. -/
def repItem (cls : Char → Bool) (n : Nat) : REItem := ⟨cls, n, n⟩

/-- A class repeated between `m` and `n` times. -/
def repRangeItem (cls : Char → Bool) (m n : Nat) : REItem := ⟨cls, m, n⟩

/-- `TrackingService.CARRIER_PATTERNS`, in source (dict insertion) order. -/
def CARRIER_PATTERNS : List (String × REPattern) :=
  [("correios", [repItem upperCls 2, repItem digitCls 9, repItem upperCls 2]),
   ("jadlog", [repItem digitCls 14]),
   ("total_express", [litItem 'T', litItem 'E', repItem digitCls 10]),
   ("loggi", [litItem 'L', litItem 'G', repItem digitCls 8]),
   ("mercado_envios", [litItem 'M', litItem 'E', repItem digitCls 12]),
   ("ups", [litItem '1', litItem 'Z', repItem upperDigitCls 16]),
   ("fedex", [repRangeItem digitCls 12 14]),
   ("dhl", [repRangeItem digitCls 10 11])]

/-- The `for carrier, pattern in CARRIER_PATTERNS.items()` loop of
`_identify_carrier`: return the first matching carrier. -/
def identifyFrom : List (String × REPattern) → List Char → String
  | [], _ => "unknown"
  | (carrier, pat) :: rest, s =>
    if matchPat pat s then carrier else identifyFrom rest s

/-- `TrackingService._identify_carrier`. -/
def identify_carrier (tracking_number : String) : String :=
  identifyFrom CARRIER_PATTERNS tracking_number.data

/-- The per-sub-order status produced by `_track_dropshipping_order`: the
status starts as `ds_order.supplier_status`; with a tracking number and a
supplier tracking API it is overwritten by the API response (`api` oracle:
`none` = request failed / non-200, handled by `_simulate_tracking_fallback`
which reports `'shipped'`; `some d` = parsed response, whose status defaults
to `'unknown'`). Without an API endpoint, `_simulate_tracking` returns no
`'status'` key, so the stored supplier status is kept. -/
def trackingStatus (api : Supplier → String → Option (Option String))
    (row : DropshippingOrderRec) : String :=
  match row.tracking_number, row.supplier.tracking_api_endpoint with
  | some tn, some _ =>
    match api row.supplier tn with
    | some d => d.getD "unknown"
    | none => "shipped"
  | _, _ => row.supplier_status

/-- The `# Determinar status geral` fold body in `TrackingService.track_order`. -/
def statusStep (overall : String) (s : String) : String :=
  if s == "delivered" then
    (if overall != "shipped" then "delivered" else overall)
  else if s == "shipped" then "shipped"
  else if s == "confirmed" && overall == "pending" then "confirmed"
  else overall

/-- The consolidated tracking result (fields of the returned dict that the
model keeps; event lists and timestamps are omitted). -/
structure ConsolidatedTracking where
  order_id : Nat
  is_dropshipping : Bool
  overall_status : String
  total_suppliers : Nat
  tracking_statuses : List String
deriving DecidableEq, Repr

/-- `TrackingService.track_order`, down to the per-sub-order statuses: load the
order, collect its `DropshippingOrder` rows, fold their tracking statuses into
the overall status, and persist the overall status on the order if it changed. -/
def track_order (api : Supplier → String → Option (Option String)) (db : DB)
    (order_id : Nat) : Except String ConsolidatedTracking × DB :=
  match findOrder db order_id with
  | none => (Except.error "Pedido não encontrado", db)
  | some order =>
    let rows := db.dropshipping_orders.filter (fun r => r.order_id == order_id)
    if rows.isEmpty then
      (Except.ok
        { order_id := order_id, is_dropshipping := false,
          overall_status := order.status, total_suppliers := 0,
          tracking_statuses := [] }, db)
    else
      let statuses := rows.map (trackingStatus api)
      let overall := statuses.foldl statusStep "pending"
      let db' :=
        if order.status != overall then
          { db with orders := db.orders.map (fun o =>
              if o.id == order_id then { o with status := overall } else o) }
        else db
      (Except.ok
        { order_id := order_id, is_dropshipping := true,
          overall_status := overall, total_suppliers := rows.length,
          tracking_statuses := statuses }, db')

/-! ### Connector manager (`src/src/models/connector_manager.py`,
`src/src/models/connector_base.py`) -/

/-- The `OrderResponse` dataclass of `connector_base.py`. -/
structure OrderResponse where
  success : Bool
  order_id : Option String
  supplier_order_id : Option String
  tracking_number : Option String
  estimated_delivery : Option String
  message : String
  error_code : Option String := none
deriving DecidableEq, Repr

/-- An abstract connector order (the `Order` dataclass of `connector_base.py`,
kept opaque: only its identity matters to the manager). -/
structure ConnectorOrder where
  id : String
deriving DecidableEq, Repr

/-- A connector's observable behaviour: `authenticate` and `create_order`
either return a value or raise (`Except.error`). -/
structure Connector where
  authenticate : Except String Bool
  create_order : ConnectorOrder → Except String OrderResponse

/-- `BaseConnector.test_connection`: `authenticate()` with every exception
caught and turned into `False`. -/
def test_connection (c : Connector) : Bool :=
  match c.authenticate with
  | Except.ok b => b
  | Except.error _ => false

/-- `ConnectorManager` state: the `connectors` dict (insertion-ordered) and the
`active_connectors` list. -/
structure ConnectorManager where
  connectors : List (String × Connector)
  active_connectors : List String

/-- Python dict assignment `d[k] = v`: update in place if the key exists
(keeping its position), otherwise append. -/
def dictInsert {β : Type} (l : List (String × β)) (k : String) (v : β) :
    List (String × β) :=
  if l.any (fun e => e.1 == k) then
    l.map (fun e => if e.1 == k then (k, v) else e)
  else l ++ [(k, v)]

/-- `ConnectorManager.get_connector`. -/
def get_connector (m : ConnectorManager) (name : String) : Option Connector :=
  (m.connectors.find? (fun e => e.1 == name)).map (fun e => e.2)

/-- `ConnectorManager.register_connector`: store the connector and mark it
active only if `test_connection()` (ultimately `authenticate()`) succeeds;
on failure or exception return `False` with the manager unchanged. -/
def register_connector (m : ConnectorManager) (name : String) (c : Connector) :
    Bool × ConnectorManager :=
  if test_connection c then
    (true, { connectors := dictInsert m.connectors name c,
             active_connectors := m.active_connectors ++ [name] })
  else (false, m)

/-- `ConnectorManager.create_order_with_supplier`. -/
def create_order_with_supplier (m : ConnectorManager) (supplier_name : String)
    (order : ConnectorOrder) : OrderResponse :=
  match get_connector m supplier_name with
  | none =>
    { success := false, order_id := none, supplier_order_id := none,
      tracking_number := none, estimated_delivery := none,
      message := "Conector " ++ supplier_name ++ " não encontrado",
      error_code := some "CONNECTOR_NOT_FOUND" }
  | some connector =>
    match connector.create_order order with
    | Except.ok r => r
    | Except.error e =>
      { success := false, order_id := none, supplier_order_id := none,
        tracking_number := none, estimated_delivery := none,
        message := "Erro ao criar pedido: " ++ e,
        error_code := some "ORDER_CREATION_FAILED" }

/-! ### Theorems -/

/-- The table-scan loop returns the first matching carrier name. -/
lemma identifyFrom_eq_find (l : List (String × REPattern)) (s : List Char) :
    identifyFrom l s = ((l.find? (fun e => matchPat e.2 s)).map (fun e => e.1)).getD "unknown" := by
  induction l with
  | nil => rfl
  | cons e rest ih =>
    by_cases h : matchPat e.2 s
    · simp [identifyFrom, h, List.find?]
    · simp only [Bool.not_eq_true] at h
      simp [identifyFrom, h, List.find?, ih]

/-- Claim C6: `_identify_carrier` is total and returns the name of the first
carrier in the fixed pattern table whose regex matches the input, `"unknown"`
if none matches; a string matching `^[A-Z]{2}\d{9}[A-Z]{2}$` is identified as
`"correios"` (e.g. `"AB123456789CD"`), and `"XYZ"` as `"unknown"`. -/
theorem claim_C6_identify_carrier :
    (∀ s : String,
      identify_carrier s =
        ((CARRIER_PATTERNS.find? (fun e => matchPat e.2 s.data)).map (fun e => e.1)).getD
          "unknown") ∧
    (∀ s : String,
      matchPat [repItem upperCls 2, repItem digitCls 9, repItem upperCls 2] s.data = true →
      identify_carrier s = "correios") ∧
    identify_carrier "AB123456789CD" = "correios" ∧
    identify_carrier "XYZ" = "unknown" := by
  refine ⟨fun s => identifyFrom_eq_find _ _, fun s h => ?_, by decide, by decide⟩
  simp [identify_carrier, CARRIER_PATTERNS, identifyFrom, h]

/-- Witness for claim C6: the theorem applied at `"AB123456789CD"`, with the
pattern-match hypothesis discharged by evaluation. -/
theorem claim_C6_identify_carrier_witness :
    identify_carrier "AB123456789CD" = "correios" :=
  claim_C6_identify_carrier.2.1 "AB123456789CD" (by decide)

/-- Updating an existing key of a Python dict keeps it findable with the new value. -/
lemma find_map_update {β : Type} (l : List (String × β)) (k : String) (v : β)
    (h : l.any (fun e => e.1 == k) = true) :
    (l.map (fun e => if e.1 == k then (k, v) else e)).find? (fun e => e.1 == k) =
      some (k, v) := by
  induction l with
  | nil => simp at h
  | cons a rest ih =>
    by_cases ha : (a.1 == k) = true
    · rw [List.map_cons, if_pos ha, List.find?_cons_of_pos _ (by simp)]
    · simp only [List.any_cons, ha, Bool.false_or] at h
      rw [List.map_cons, if_neg ha, List.find?_cons_of_neg _ (by simp_all)]
      exact ih h

/-- A key absent from a Python dict is findable after appending it. -/
lemma find_append_new {β : Type} (l : List (String × β)) (k : String) (v : β)
    (h : l.any (fun e => e.1 == k) = false) :
    ((l ++ [(k, v)]).find? (fun e => e.1 == k)) = some (k, v) := by
  induction l with
  | nil => rw [List.nil_append, List.find?_cons_of_pos _ (by simp)]
  | cons a rest ih =>
    simp only [List.any_cons, Bool.or_eq_false_iff] at h
    rw [List.cons_append, List.find?_cons_of_neg _ (by simp [h.1])]
    exact ih h.2

/-- Looking up the freshly inserted key in a Python-dict update. -/
lemma dictInsert_find_self {β : Type} (l : List (String × β)) (k : String) (v : β) :
    ((dictInsert l k v).find? (fun e => e.1 == k)) = some (k, v) := by
  unfold dictInsert
  split
  · exact find_map_update l k v (by assumption)
  · rename_i hany
    exact find_append_new l k v (Bool.eq_false_iff.mpr hany)

/-- Claim C7: `register_connector` stores the connector and marks it active
exactly when the connector's authentication check succeeds; when authentication
returns false or raises, it returns `False` without propagating, leaves the
manager unchanged, and a previously unregistered name still resolves to `None`. -/
theorem claim_C7_register_connector :
    ∀ (m : ConnectorManager) (name : String) (c : Connector),
      (c.authenticate = Except.ok true →
        (register_connector m name c).1 = true ∧
        get_connector (register_connector m name c).2 name = some c ∧
        name ∈ (register_connector m name c).2.active_connectors) ∧
      (c.authenticate ≠ Except.ok true →
        register_connector m name c = (false, m) ∧
        (get_connector m name = none →
          get_connector (register_connector m name c).2 name = none)) := by
  intro m name c
  constructor
  · intro hauth
    have htc : test_connection c = true := by
      unfold test_connection; rw [hauth]
    refine ⟨?_, ?_, ?_⟩ <;>
      simp [register_connector, htc, get_connector, dictInsert_find_self]
  · intro hauth
    have htc : test_connection c = false := by
      unfold test_connection
      match hc : c.authenticate with
      | Except.ok true => exact absurd hc hauth
      | Except.ok false => rfl
      | Except.error _ => rfl
    refine ⟨by simp [register_connector, htc], fun h => ?_⟩
    simpa [register_connector, htc] using h

/-- A connector whose authentication raises. -/
def raisingConnector : Connector :=
  { authenticate := Except.error "connection refused",
    create_order := fun _ => Except.error "unreachable" }

/-- Witness for claim C7: registering a connector whose `authenticate` raises,
on an empty manager, returns `False`, leaves the manager unchanged, and the
name still resolves to `None`. -/
theorem claim_C7_register_connector_witness :
    register_connector ⟨[], []⟩ "acme" raisingConnector = (false, ⟨[], []⟩) ∧
    get_connector (register_connector ⟨[], []⟩ "acme" raisingConnector).2 "acme" = none :=
  ⟨((claim_C7_register_connector ⟨[], []⟩ "acme" raisingConnector).2
      (by simp [raisingConnector])).1,
   ((claim_C7_register_connector ⟨[], []⟩ "acme" raisingConnector).2
      (by simp [raisingConnector])).2 rfl⟩

/-- The `OrderResponse` built for an unregistered supplier name. -/
def connectorNotFoundResponse (supplier_name : String) : OrderResponse :=
  { success := false, order_id := none, supplier_order_id := none,
    tracking_number := none, estimated_delivery := none,
    message := "Conector " ++ supplier_name ++ " não encontrado",
    error_code := some "CONNECTOR_NOT_FOUND" }

/-- The `OrderResponse` built when a connector's `create_order` raises. -/
def orderCreationFailedResponse (e : String) : OrderResponse :=
  { success := false, order_id := none, supplier_order_id := none,
    tracking_number := none, estimated_delivery := none,
    message := "Erro ao criar pedido: " ++ e,
    error_code := some "ORDER_CREATION_FAILED" }

/-- Claim C10: `create_order_with_supplier` is total and never raises: an
unregistered supplier name yields a `success=False` response with error code
`CONNECTOR_NOT_FOUND`; a connector whose `create_order` raises yields a
`success=False` response with error code `ORDER_CREATION_FAILED`; otherwise
the connector's own `OrderResponse` is returned unchanged. -/
theorem claim_C10_create_order_with_supplier :
    ∀ (m : ConnectorManager) (name : String) (o : ConnectorOrder),
      (get_connector m name = none →
        create_order_with_supplier m name o = connectorNotFoundResponse name) ∧
      (∀ c, get_connector m name = some c →
        (∀ r, c.create_order o = Except.ok r → create_order_with_supplier m name o = r) ∧
        (∀ e, c.create_order o = Except.error e →
          create_order_with_supplier m name o = orderCreationFailedResponse e)) := by
  intro m name o
  refine ⟨fun h => ?_, fun c hc => ⟨fun r hr => ?_, fun e he => ?_⟩⟩
  · simp [create_order_with_supplier, h, connectorNotFoundResponse]
  · simp [create_order_with_supplier, hc, hr]
  · simp [create_order_with_supplier, hc, he, orderCreationFailedResponse]

/-- Witness for claim C10: on the empty manager every supplier name is
unregistered, so the call returns the `CONNECTOR_NOT_FOUND` response. -/
theorem claim_C10_create_order_with_supplier_witness :
    create_order_with_supplier ⟨[], []⟩ "acme" ⟨"o1"⟩ =
      connectorNotFoundResponse "acme" :=
  (claim_C10_create_order_with_supplier ⟨[], []⟩ "acme" ⟨"o1"⟩).1 rfl

/-! Status-consolidation lemmas for `TrackingService.track_order` (claim C3). -/

/-- The declarative consolidation the fold actually computes: `shipped` beats
everything, then `delivered`, then `confirmed`, then `pending`. -/
def consolidateSpec (statuses : List String) : String :=
  if statuses.contains "shipped" then "shipped"
  else if statuses.contains "delivered" then "delivered"
  else if statuses.contains "confirmed" then "confirmed"
  else "pending"

lemma statusStep_shipped (s : String) : statusStep "shipped" s = "shipped" := by
  unfold statusStep
  split_ifs <;> simp_all

lemma statusStep_delivered (s : String) :
    statusStep "delivered" s = if s == "shipped" then "shipped" else "delivered" := by
  unfold statusStep
  split_ifs <;> simp_all

lemma statusStep_confirmed (s : String) :
    statusStep "confirmed" s =
      if s == "shipped" then "shipped"
      else if s == "delivered" then "delivered" else "confirmed" := by
  unfold statusStep
  split_ifs <;> simp_all

lemma statusStep_pending (s : String) :
    statusStep "pending" s =
      if s == "shipped" then "shipped"
      else if s == "delivered" then "delivered"
      else if s == "confirmed" then "confirmed" else "pending" := by
  unfold statusStep
  split_ifs <;> simp_all

lemma foldl_statusStep_shipped (l : List String) :
    l.foldl statusStep "shipped" = "shipped" := by
  induction l with
  | nil => rfl
  | cons s t ih => rw [List.foldl_cons, statusStep_shipped, ih]

lemma foldl_statusStep_delivered (l : List String) :
    l.foldl statusStep "delivered" =
      if l.contains "shipped" then "shipped" else "delivered" := by
  induction l with
  | nil => rfl
  | cons s t ih =>
    rw [List.foldl_cons, statusStep_delivered]
    by_cases hs : s = "shipped"
    · simp [hs, foldl_statusStep_shipped]
    · have hs' : ¬("shipped" = s) := fun h => hs h.symm
      simp [hs, hs', ih]

lemma foldl_statusStep_confirmed (l : List String) :
    l.foldl statusStep "confirmed" =
      if l.contains "shipped" then "shipped"
      else if l.contains "delivered" then "delivered" else "confirmed" := by
  induction l with
  | nil => rfl
  | cons s t ih =>
    rw [List.foldl_cons, statusStep_confirmed]
    by_cases hs : s = "shipped"
    · simp [hs, foldl_statusStep_shipped]
    · have hs' : ¬("shipped" = s) := fun h => hs h.symm
      by_cases hd : s = "delivered"
      · simp [hs, hs', hd, foldl_statusStep_delivered]
      · have hd' : ¬("delivered" = s) := fun h => hd h.symm
        simp [hs, hs', hd, hd', ih]

lemma foldl_statusStep_pending (l : List String) :
    l.foldl statusStep "pending" = consolidateSpec l := by
  induction l with
  | nil => rfl
  | cons s t ih =>
    rw [List.foldl_cons, statusStep_pending]
    by_cases hs : s = "shipped"
    · simp [consolidateSpec, hs, foldl_statusStep_shipped]
    · have hs' : ¬("shipped" = s) := fun h => hs h.symm
      by_cases hd : s = "delivered"
      · simp [consolidateSpec, hs, hs', hd, foldl_statusStep_delivered]
      · have hd' : ¬("delivered" = s) := fun h => hd h.symm
        by_cases hc : s = "confirmed"
        · simp [consolidateSpec, hs, hs', hd, hd', hc, foldl_statusStep_confirmed]
        · have hc' : ¬("confirmed" = s) := fun h => hc h.symm
          simp [consolidateSpec, hs, hs', hd, hd', hc, hc', ih]

/-- Two demo suppliers (no live tracking API). -/
def supA : Supplier := ⟨1, "Alpha Supplies", 10, 2, 4, none⟩

def supB : Supplier := ⟨2, "Beta Goods", 20, 5, 9, none⟩

/-- A tracking-API oracle representing suppliers with no reachable API. -/
def apiNone : Supplier → String → Option (Option String) := fun _ _ => none

/-- A database whose order 1 has two sub-orders with supplier statuses
`delivered` and `confirmed`. -/
def dbC3 : DB :=
  { orders := [⟨1, [], "processing", true⟩],
    supplier_products := [],
    dropshipping_orders :=
      [⟨1, 1, 1, supA, some "ALP-11111111", "delivered", none⟩,
       ⟨2, 1, 2, supB, some "BET-22222222", "confirmed", none⟩],
    next_ds_id := 3 }

/-- Counterexample to claim C3: for sub-orders with statuses
`{delivered, confirmed}` the consolidated overall status computed by
`track_order` is `delivered`, although not every sub-order is delivered —
so `delivered` is not "only reported when all sub-orders are delivered". -/
theorem claim_C3_counterexample :
    (track_order apiNone dbC3 1).1 =
      Except.ok ⟨1, true, "delivered", 2, ["delivered", "confirmed"]⟩ ∧
    ("confirmed" : String) ≠ "delivered" :=
  ⟨rfl, by decide⟩

/-- Claim C3 (amended): for every parent order with at least one sub-order,
the consolidated overall status computed by `track_order` is `shipped` if any
sub-order's tracking status is `shipped`; otherwise `delivered` if any is
`delivered` (even if others are not delivered); otherwise `confirmed` if any
is `confirmed`; otherwise `pending`. In particular any status set containing
`shipped` consolidates to `shipped` (never `delivered`). -/
theorem claim_C3_amended_consolidation :
    ∀ (api : Supplier → String → Option (Option String)) (db : DB) (oid : Nat)
      (r : ConsolidatedTracking) (db' : DB),
      track_order api db oid = (Except.ok r, db') → r.is_dropshipping = true →
      (r.overall_status = consolidateSpec r.tracking_statuses ∧
       (r.tracking_statuses.contains "shipped" = true → r.overall_status = "shipped") ∧
       (r.tracking_statuses.contains "shipped" = false →
         r.tracking_statuses.contains "delivered" = true →
         r.overall_status = "delivered")) := by
  intro api db oid r db' h hds
  unfold track_order at h
  split at h
  · simp at h
  · dsimp only at h
    split at h
    · simp only [Prod.mk.injEq, Except.ok.injEq] at h
      rw [← h.1] at hds
      simp at hds
    · simp only [Prod.mk.injEq, Except.ok.injEq] at h
      obtain ⟨hr, _⟩ := h
      subst hr
      refine ⟨foldl_statusStep_pending _, fun hs => ?_, fun hs hd => ?_⟩
      · dsimp only at hs ⊢
        rw [foldl_statusStep_pending, consolidateSpec, if_pos hs]
      · dsimp only at hs hd ⊢
        rw [foldl_statusStep_pending, consolidateSpec,
          if_neg (by rw [hs]; exact Bool.false_ne_true), if_pos hd]

/-- The database `dbC3` after `track_order` persisted the consolidated status. -/
def dbC3upd : DB := { dbC3 with orders := [⟨1, [], "delivered", true⟩] }

/-- Witness for the amended claim C3: the theorem applied to the concrete
database `dbC3` (sub-order statuses `delivered` and `confirmed`). -/
theorem claim_C3_amended_consolidation_witness :
    ("delivered" : String) = consolidateSpec ["delivered", "confirmed"] ∧
    ((["delivered", "confirmed"] : List String).contains "shipped" = true →
      ("delivered" : String) = "shipped") ∧
    ((["delivered", "confirmed"] : List String).contains "shipped" = false →
      (["delivered", "confirmed"] : List String).contains "delivered" = true →
      ("delivered" : String) = "delivered") :=
  claim_C3_amended_consolidation apiNone dbC3 1
    ⟨1, true, "delivered", 2, ["delivered", "confirmed"]⟩ dbC3upd rfl rfl

/-- If the commit tail raises, the committed database is unchanged. -/
lemma routeOrderCommit_error_db (rand : Nat → String) (db : DB) (oid : Nat)
    (order : OrderRec) (strategy : String) (final : List SupplierGroup) (inj : Fault)
    (e : String) (h : (routeOrderCommit rand db oid order strategy final inj).1 = Except.error e) :
    (routeOrderCommit rand db oid order strategy final inj).2 = db := by
  unfold routeOrderCommit at h ⊢
  by_cases hc : (inj == Fault.commitRaise) = true
  · dsimp only
    rw [if_pos hc]
  · dsimp only at h
    rw [if_neg hc] at h
    exact absurd h (by simp)

/-- Unfolding `route_order` once the order lookup succeeded. -/
lemma route_order_some (rand : Nat → String) (db : DB) (oid : Nat) (o : OrderRec)
    (inj : Fault) (hf : findOrder db oid = some o) :
    route_order rand db oid inj = routeOrderLoaded rand db oid o inj := by
  unfold route_order
  rw [hf]

/-- Unfolding the dispatch-fault case of the loaded routing body. -/
lemma routeOrderLoaded_dispatch (rand : Nat → String) (db : DB) (oid : Nat)
    (o : OrderRec) (k : Nat) :
    routeOrderLoaded rand db oid o (Fault.dispatchRaise k) =
      if k < (execute_routing_strategy (analyze_order_items db o)
          (determine_routing_strategy (analyze_order_items db o))).length then
        (Except.error "exception during dispatch", db)
      else
        routeOrderCommit rand db oid o
          (determine_routing_strategy (analyze_order_items db o))
          (execute_routing_strategy (analyze_order_items db o)
            (determine_routing_strategy (analyze_order_items db o)))
          (Fault.dispatchRaise k) := rfl

/-- Unfolding the fault-free case of the loaded routing body. -/
lemma routeOrderLoaded_noFault (rand : Nat → String) (db : DB) (oid : Nat)
    (o : OrderRec) :
    routeOrderLoaded rand db oid o Fault.noFault =
      routeOrderCommit rand db oid o
        (determine_routing_strategy (analyze_order_items db o))
        (execute_routing_strategy (analyze_order_items db o)
          (determine_routing_strategy (analyze_order_items db o)))
        Fault.noFault := rfl

/-- Claim C9: `route_order` is atomic on failure — whenever the call raises
(at any injected fault point, or because the order cannot be loaded), the
session is rolled back and the committed database is unchanged: no
`DropshippingOrder` rows are persisted and the parent order's `status` and
`is_dropshipping_order` flag keep their previous values. -/
theorem claim_C9_route_order_atomic :
    ∀ (rand : Nat → String) (db : DB) (oid : Nat) (inj : Fault) (e : String),
      (route_order rand db oid inj).1 = Except.error e →
      (route_order rand db oid inj).2 = db := by
  intro rand db oid inj e
  cases hf : findOrder db oid with
  | none =>
    intro _
    unfold route_order
    rw [hf]
  | some order =>
    rw [route_order_some rand db oid order inj hf]
    cases inj with
    | analyzeRaise => intro _; rfl
    | commitRaise => intro _; rfl
    | noFault =>
      rw [routeOrderLoaded_noFault]
      exact routeOrderCommit_error_db rand db oid order _ _ _ e
    | dispatchRaise k =>
      rw [routeOrderLoaded_dispatch]
      by_cases hk : k <
          (execute_routing_strategy (analyze_order_items db order)
            (determine_routing_strategy (analyze_order_items db order))).length
      · rw [if_pos hk]
        intro _; rfl
      · rw [if_neg hk]
        exact routeOrderCommit_error_db rand db oid order _ _ _ e

/-- A fixed oracle for the simulated random order-id digits. -/
def rand0 : Nat → String := fun _ => "00000000"

/-- Witness for claim C9: an exception injected during analysis of order 1 of
`dbC3` raises and leaves the database unchanged. -/
theorem claim_C9_route_order_atomic_witness :
    (route_order rand0 dbC3 1 Fault.analyzeRaise).2 = dbC3 :=
  claim_C9_route_order_atomic rand0 dbC3 1 Fault.analyzeRaise
    "exception during analysis" rfl

/-- A database whose order 7 has zero items. -/
def dbZeroItems : DB :=
  { orders := [⟨7, [], "pending", false⟩], supplier_products := [],
    dropshipping_orders := [], next_ds_id := 1 }

/-- A third demo supplier. -/
def supC : Supplier := ⟨3, "Gamma Trade", 5, 1, 3, none⟩

/-- An order item of one unit of a dropshipping product of the given supplier. -/
def mkItem (price : ℚ) (s : Supplier) : OrderItemRec :=
  ⟨price, 1, ⟨true, some s.id, s, none⟩⟩

/-- An order of three dropshipping items from three distinct suppliers
(total value 60). -/
def order42 : OrderRec :=
  ⟨42, [mkItem 10 supA, mkItem 20 supB, mkItem 30 supC], "pending", false⟩

/-- A database holding `order42`. -/
def dbC2 : DB :=
  { orders := [order42], supplier_products := [], dropshipping_orders := [],
    next_ds_id := 1 }

/-- Counterexample to claim C2: (1) an order with zero items does not make
`route_order` raise — it returns a `NO_DROPSHIPPING` result; (2) a dispatch
failure for one of three supplier groups is not contained: `route_order`
raises instead of returning results for the other groups. -/
theorem claim_C2_counterexample :
    (route_order rand0 dbZeroItems 7 Fault.noFault).1 =
      Except.ok ⟨7, "NO_DROPSHIPPING", [], [], 0⟩ ∧
    (route_order rand0 dbC2 42 (Fault.dispatchRaise 0)).1 =
      Except.error "exception during dispatch" := by
  constructor
  · rfl
  · have hlen : 0 < (execute_routing_strategy (analyze_order_items dbC2 order42)
        (determine_routing_strategy (analyze_order_items dbC2 order42))).length := by
      norm_num [dbC2, order42, analyze_order_items, analyzeStep, analyzeStepEligible,
        itemEligible, mkItem, supA, supB, supC, supplierIdTruthy, hasGroup,
        updateGroupEntry, findSupplierProduct, determine_routing_strategy,
        execute_routing_strategy, route_by_cost, sortByKey]
      simp
    rw [route_order_some rand0 dbC2 42 order42 (Fault.dispatchRaise 0) rfl,
      routeOrderLoaded_dispatch, if_pos hlen]

/-- `route_order` with no injected fault succeeds whenever the order exists. -/
lemma route_order_noFault_ok (rand : Nat → String) (db : DB) (oid : Nat)
    (o : OrderRec) (hf : findOrder db oid = some o) :
    (route_order rand db oid Fault.noFault).1 =
      Except.ok
        { order_id := oid,
          routing_strategy := determine_routing_strategy (analyze_order_items db o),
          supplier_orders :=
            execute_routing_strategy (analyze_order_items db o)
              (determine_routing_strategy (analyze_order_items db o)),
          dropshipping_orders :=
            (create_dropshipping_orders rand db.next_ds_id o
              (execute_routing_strategy (analyze_order_items db o)
                (determine_routing_strategy (analyze_order_items db o)))).map
              (fun r => r.id),
          total_suppliers :=
            (execute_routing_strategy (analyze_order_items db o)
              (determine_routing_strategy (analyze_order_items db o))).length } := by
  rw [route_order_some rand db oid o Fault.noFault hf]
  rfl

/-- Claim C2 (amended): with no runtime fault injected, `route_order` raises
exactly when the order cannot be loaded; an order with zero items does not
raise and yields a `NO_DROPSHIPPING` result with no supplier orders; and a
dispatch exception for any supplier group aborts the whole call (rollback and
re-raise) rather than being contained in the result. -/
theorem claim_C2_amended_route_order :
    ∀ (rand : Nat → String) (db : DB) (oid : Nat),
      ((route_order rand db oid Fault.noFault).1 = Except.error "Pedido não encontrado" ↔
        findOrder db oid = none) ∧
      (∀ o, findOrder db oid = some o → o.items = [] →
        (route_order rand db oid Fault.noFault).1 =
          Except.ok ⟨oid, "NO_DROPSHIPPING", [], [], 0⟩) ∧
      (∀ o k, findOrder db oid = some o →
        k < (execute_routing_strategy (analyze_order_items db o)
              (determine_routing_strategy (analyze_order_items db o))).length →
        (route_order rand db oid (Fault.dispatchRaise k)).1 =
          Except.error "exception during dispatch") := by
  intro rand db oid
  refine ⟨⟨fun h => ?_, fun h => ?_⟩, fun o hf ho => ?_, fun o k hf hk => ?_⟩
  · cases hf : findOrder db oid with
    | none => rfl
    | some o => rw [route_order_noFault_ok rand db oid o hf] at h; exact absurd h (by simp)
  · unfold route_order
    rw [h]
  · rw [route_order_noFault_ok rand db oid o hf]
    simp [analyze_order_items, ho, determine_routing_strategy,
      execute_routing_strategy, create_dropshipping_orders]
  · rw [route_order_some rand db oid o (Fault.dispatchRaise k) hf,
      routeOrderLoaded_dispatch, if_pos hk]

/-- Witness for the amended claim C2: applied to the zero-items order 7 of
`dbZeroItems`, whose routing returns a `NO_DROPSHIPPING` result without raising. -/
theorem claim_C2_amended_route_order_witness :
    (route_order rand0 dbZeroItems 7 Fault.noFault).1 =
      Except.ok ⟨7, "NO_DROPSHIPPING", [], [], 0⟩ :=
  (claim_C2_amended_route_order rand0 dbZeroItems 7).2.1 ⟨7, [], "pending", false⟩ rfl rfl

/-! Lemmas for claim C1: `_analyze_order_items` computes the order's total
value and one supplier group per distinct eligible supplier. -/

lemma analyzeStepEligible_total_value (db : DB) (a : Analysis) (item : OrderItemRec)
    (sid : Nat) : (analyzeStepEligible db a item sid).total_value = a.total_value := by
  unfold analyzeStepEligible
  dsimp only
  repeat' split
  all_goals rfl

lemma analyzeStep_total_value (db : DB) (a : Analysis) (item : OrderItemRec) :
    (analyzeStep db a item).total_value =
      a.total_value + item.price * (item.quantity : ℚ) := by
  unfold analyzeStep
  dsimp only
  split
  · rw [analyzeStepEligible_total_value]
  · rfl

lemma foldl_analyzeStep_total_value (db : DB) (items : List OrderItemRec) :
    ∀ a : Analysis,
      (items.foldl (analyzeStep db) a).total_value =
        a.total_value + (items.map (fun i => i.price * (i.quantity : ℚ))).sum := by
  induction items with
  | nil => intro a; simp
  | cons i t ih =>
    intro a
    rw [List.foldl_cons, ih, analyzeStep_total_value, List.map_cons, List.sum_cons, add_assoc]

lemma analyze_total_value (db : DB) (o : OrderRec) :
    (analyze_order_items db o).total_value = orderTotalValue o := by
  unfold analyze_order_items orderTotalValue
  dsimp only
  rw [foldl_analyzeStep_total_value]
  simp

lemma updateGroupEntry_keys (l : List (Nat × SupplierGroup)) (sid : Nat)
    (f : SupplierGroup → SupplierGroup) :
    (updateGroupEntry l sid f).map Prod.fst = l.map Prod.fst := by
  unfold updateGroupEntry
  rw [List.map_map]
  apply List.map_congr_left
  intro e _
  by_cases he : e.1 = sid <;> simp [he]

lemma hasGroup_iff_mem_keys (l : List (Nat × SupplierGroup)) (sid : Nat) :
    hasGroup l sid = true ↔ sid ∈ l.map Prod.fst := by
  unfold hasGroup
  rw [List.any_eq_true]
  constructor
  · rintro ⟨e, he, hbe⟩
    exact List.mem_map.mpr ⟨e, he, beq_iff_eq.mp hbe⟩
  · intro hm
    obtain ⟨e, he, hfst⟩ := List.mem_map.mp hm
    exact ⟨e, he, beq_iff_eq.mpr hfst⟩

lemma analyzeStepEligible_keys (db : DB) (a : Analysis) (item : OrderItemRec)
    (sid : Nat) :
    (analyzeStepEligible db a item sid).suppliers_involved.map Prod.fst =
      if hasGroup a.suppliers_involved sid then a.suppliers_involved.map Prod.fst
      else a.suppliers_involved.map Prod.fst ++ [sid] := by
  unfold analyzeStepEligible
  dsimp only
  repeat' split
  all_goals simp [updateGroupEntry_keys]

lemma analyzeStep_keys (db : DB) (a : Analysis) (item : OrderItemRec) :
    (analyzeStep db a item).suppliers_involved.map Prod.fst =
      if itemEligible item = true then
        (if hasGroup a.suppliers_involved (item.product.supplier_id.getD 0) then
          a.suppliers_involved.map Prod.fst
         else a.suppliers_involved.map Prod.fst ++ [item.product.supplier_id.getD 0])
      else a.suppliers_involved.map Prod.fst := by
  unfold analyzeStep
  dsimp only
  split
  · rw [analyzeStepEligible_keys]
  · rfl

lemma eligIds_cons (i : OrderItemRec) (t : List OrderItemRec) :
    eligIds (i :: t) =
      if itemEligible i = true then i.product.supplier_id.getD 0 :: eligIds t
      else eligIds t := by
  by_cases he : itemEligible i = true
  · rw [if_pos he]
    unfold eligIds
    rw [List.filterMap_cons]
    unfold itemEligible at he
    rw [if_pos he]
    match hs : i.product.supplier_id with
    | none =>
      rw [hs] at he
      simp [supplierIdTruthy] at he
    | some n => rfl
  · rw [if_neg he]
    unfold eligIds
    rw [List.filterMap_cons]
    unfold itemEligible at he
    rw [if_neg he]

lemma foldl_analyzeStep_keys (db : DB) (items : List OrderItemRec) :
    ∀ a : Analysis,
      ((a.suppliers_involved.map Prod.fst).Nodup →
        (((items.foldl (analyzeStep db) a).suppliers_involved.map Prod.fst).Nodup ∧
         ((items.foldl (analyzeStep db) a).suppliers_involved.map Prod.fst).toFinset =
           (a.suppliers_involved.map Prod.fst).toFinset ∪ (eligIds items).toFinset)) := by
  induction items with
  | nil => intro a ha; simp [eligIds, ha]
  | cons i t ih =>
    intro a ha
    rw [List.foldl_cons]
    have hk := analyzeStep_keys db a i
    by_cases he : itemEligible i = true
    · rw [if_pos he] at hk
      by_cases hg : hasGroup a.suppliers_involved (i.product.supplier_id.getD 0) = true
      · rw [if_pos hg] at hk
        obtain ⟨hnd, hts⟩ := ih (analyzeStep db a i) (hk ▸ ha)
        refine ⟨hnd, ?_⟩
        rw [hts, hk, eligIds_cons, if_pos he]
        have hmem : i.product.supplier_id.getD 0 ∈
            (a.suppliers_involved.map Prod.fst).toFinset :=
          List.mem_toFinset.mpr ((hasGroup_iff_mem_keys _ _).mp hg)
        rw [List.toFinset_cons, Finset.union_insert,
          Finset.insert_eq_self.mpr (Finset.mem_union_left _ hmem)]
      · rw [if_neg hg] at hk
        have hfresh : i.product.supplier_id.getD 0 ∉ a.suppliers_involved.map Prod.fst :=
          fun hm => hg ((hasGroup_iff_mem_keys _ _).mpr hm)
        have ha' : ((analyzeStep db a i).suppliers_involved.map Prod.fst).Nodup := by
          rw [hk]
          exact List.Nodup.append ha (List.nodup_singleton _)
            (by simpa [List.disjoint_singleton] using hfresh)
        obtain ⟨hnd, hts⟩ := ih (analyzeStep db a i) ha'
        refine ⟨hnd, ?_⟩
        rw [hts, hk, eligIds_cons, if_pos he]
        ext x
        simp [List.toFinset_append]
        tauto
    · rw [if_neg he] at hk
      obtain ⟨hnd, hts⟩ := ih (analyzeStep db a i) (hk ▸ ha)
      refine ⟨hnd, ?_⟩
      rw [hts, hk, eligIds_cons, if_neg he]

lemma analyze_suppliers_length (db : DB) (o : OrderRec) :
    (analyze_order_items db o).suppliers_involved.length = distinctSupplierCount o := by
  unfold analyze_order_items distinctSupplierCount eligibleSupplierIds
  dsimp only
  rw [List.length_map]
  obtain ⟨hnd, hts⟩ := foldl_analyzeStep_keys db o.items
    { total_items := o.items.length, dropshipping_items := [], regular_items := [],
      suppliers_involved := [], total_value := 0, total_weight := 0,
      requires_special_handling := false } (by simp)
  have hlen : (o.items.foldl (analyzeStep db)
      { total_items := o.items.length, dropshipping_items := [], regular_items := [],
        suppliers_involved := [], total_value := 0, total_weight := 0,
        requires_special_handling := false }).suppliers_involved.length =
      (eligIds o.items).toFinset.card := by
    rw [← List.length_map _ Prod.fst, ← List.toFinset_card_of_nodup hnd, hts]
    simp
  simpa using hlen

/-- Claim C1: the routing strategy chosen for an order is the stated
deterministic function of the number of distinct dropshipping suppliers among
the order's items and the order's total value (sum of `price * quantity` over
all items): 0 suppliers → `NO_DROPSHIPPING`; exactly 1 → `SINGLE_SUPPLIER`;
more than 1 and total > 1000 → `MULTI_SUPPLIER_SPEED`; more than 1 and
total < 200 → `MULTI_SUPPLIER_COST`; otherwise `HYBRID`. -/
theorem claim_C1_strategy_determinism :
    ∀ (db : DB) (o : OrderRec),
      determine_routing_strategy (analyze_order_items db o) =
        (if distinctSupplierCount o = 0 then "NO_DROPSHIPPING"
         else if distinctSupplierCount o = 1 then "SINGLE_SUPPLIER"
         else if orderTotalValue o > 1000 then "MULTI_SUPPLIER_SPEED"
         else if orderTotalValue o < 200 then "MULTI_SUPPLIER_COST"
         else "HYBRID") := by
  intro db o
  unfold determine_routing_strategy
  rw [analyze_suppliers_length db o, analyze_total_value db o]
  simp only [beq_iff_eq]

/-! Lemmas for claims C4 and C5: properties of the three multi-supplier
routing orders (`_route_by_cost`, `_route_by_speed`, `_route_hybrid`). -/

/-- The groups of the analyzed order, in dict insertion order
(`list(analysis['suppliers_involved'].values())`). -/
def analyzedGroups (db : DB) (o : OrderRec) : List SupplierGroup :=
  (analyze_order_items db o).suppliers_involved.map Prod.snd

/-- A supplier group without the `hybrid_score` bookkeeping key. -/
def clearScore (g : SupplierGroup) : SupplierGroup := { g with hybrid_score := none }

/-- The hybrid score exactly as the specification states it:
`0.6 * normalized cost + 0.4 * normalized days`, each normalized by the
maximum across the order's groups, with a term equal to 0 when its maximum
is 0. -/
def specHybridScore (groups : List SupplierGroup) (g : SupplierGroup) : ℚ :=
  (if maxList (groups.map (fun s => s.supplier.shipping_cost)) = 0 then 0
   else (0.6 : ℚ) *
     (g.supplier.shipping_cost / maxList (groups.map (fun s => s.supplier.shipping_cost)))) +
  (if maxList (groups.map (fun s => s.estimated_shipping_days)) = 0 then 0
   else (0.4 : ℚ) *
     (g.estimated_shipping_days / maxList (groups.map (fun s => s.estimated_shipping_days))))

lemma sortByKey_perm {α : Type} (key : α → ℚ) (l : List α) :
    (sortByKey key l).Perm l :=
  List.perm_insertionSort _ l

lemma sortByKey_pairwise {α : Type} (key : α → ℚ) (l : List α) :
    (sortByKey key l).Pairwise (fun a b => key a ≤ key b) := by
  haveI : IsTotal α (fun a b => key a ≤ key b) := ⟨fun a b => le_total (key a) (key b)⟩
  haveI : IsTrans α (fun a b => key a ≤ key b) := ⟨fun _ _ _ hab hbc => le_trans hab hbc⟩
  exact List.sorted_insertionSort _ l

/-- A stable sort is the identity when every pair is already in relation. -/
lemma insertionSort_of_forall_rel {α : Type} (r : α → α → Prop) [DecidableRel r] :
    ∀ l : List α, (∀ a ∈ l, ∀ b ∈ l, r a b) → List.insertionSort r l = l
  | [], _ => rfl
  | a :: t, h => by
    rw [List.insertionSort, insertionSort_of_forall_rel r t
      (fun x hx y hy => h x (List.mem_cons_of_mem a hx) y (List.mem_cons_of_mem a hy))]
    cases t with
    | nil => rfl
    | cons b t' =>
      exact List.orderedInsert_of_le r t'
        (h a (List.mem_cons_self a _) b (List.mem_cons_of_mem a (List.mem_cons_self b _)))

lemma sortByKey_const {α : Type} (key : α → ℚ) (l : List α) (c : ℚ)
    (h : ∀ a ∈ l, key a = c) : sortByKey key l = l :=
  insertionSort_of_forall_rel _ l (fun a ha b hb => by rw [h a ha, h b hb])

lemma le_foldl_max (xs : List ℚ) : ∀ acc : ℚ, acc ≤ xs.foldl max acc := by
  induction xs with
  | nil => intro acc; exact le_refl acc
  | cons y ys ih =>
    intro acc
    exact le_trans (le_max_left acc y) (ih (max acc y))

lemma maxList_nonneg (l : List ℚ) (h : ∀ x ∈ l, 0 ≤ x) : 0 ≤ maxList l := by
  cases l with
  | nil => exact le_refl 0
  | cons x xs =>
    exact le_trans (h x (List.mem_cons_self x xs)) (le_foldl_max xs x)

lemma foldl_max_const (c : ℚ) : ∀ xs : List ℚ, (∀ x ∈ xs, x = c) → xs.foldl max c = c
  | [], _ => rfl
  | y :: ys, h => by
    rw [List.foldl_cons, h y (List.mem_cons_self y ys), max_self]
    exact foldl_max_const c ys (fun x hx => h x (List.mem_cons_of_mem y hx))

lemma maxList_const (l : List ℚ) (c : ℚ) (hne : l ≠ []) (h : ∀ x ∈ l, x = c) :
    maxList l = c := by
  cases l with
  | nil => exact absurd rfl hne
  | cons x xs =>
    unfold maxList
    rw [h x (List.mem_cons_self x xs)]
    exact foldl_max_const c xs (fun y hy => h y (List.mem_cons_of_mem x hy))

/-- Under nonnegative costs and days, the code's hybrid score coincides with
the specification's formula. -/
lemma hybridScore_eq_spec (groups : List SupplierGroup) (g : SupplierGroup)
    (hc : ∀ x ∈ groups, 0 ≤ x.supplier.shipping_cost)
    (hd : ∀ x ∈ groups, 0 ≤ x.estimated_shipping_days) :
    hybridScore groups g = specHybridScore groups g := by
  unfold hybridScore specHybridScore
  have h1 : 0 ≤ maxList (groups.map (fun s => s.supplier.shipping_cost)) := by
    apply maxList_nonneg
    intro x hx
    obtain ⟨y, hy, rfl⟩ := List.mem_map.mp hx
    exact hc y hy
  have h2 : 0 ≤ maxList (groups.map (fun s => s.estimated_shipping_days)) := by
    apply maxList_nonneg
    intro x hx
    obtain ⟨y, hy, rfl⟩ := List.mem_map.mp hx
    exact hd y hy
  dsimp only
  congr 1
  · rcases h1.lt_or_eq with h | h
    · rw [if_pos h, if_neg (ne_of_gt h), mul_comm]
    · rw [if_neg (by rw [← h]; exact lt_irrefl 0), if_pos h.symm, zero_mul]
  · rcases h2.lt_or_eq with h | h
    · rw [if_pos h, if_neg (ne_of_gt h), mul_comm]
    · rw [if_neg (by rw [← h]; exact lt_irrefl 0), if_pos h.symm, zero_mul]

lemma analyzedGroups_estimated (db : DB) (o : OrderRec) :
    ∀ g ∈ analyzedGroups db o,
      g.estimated_shipping_days =
        (g.supplier.shipping_time_min_days + g.supplier.shipping_time_max_days) / 2 := by
  intro g hg
  unfold analyzedGroups analyze_order_items at hg
  dsimp only at hg
  rw [List.map_map] at hg
  obtain ⟨e, _, rfl⟩ := List.mem_map.mp hg
  rfl

lemma mem_updateGroupEntry {l : List (Nat × SupplierGroup)} {sid : Nat}
    {f : SupplierGroup → SupplierGroup} {e : Nat × SupplierGroup}
    (he : e ∈ updateGroupEntry l sid f) :
    ∃ e' ∈ l, e = e' ∨ e = (e'.1, f e'.2) := by
  unfold updateGroupEntry at he
  obtain ⟨e', he', hee⟩ := List.mem_map.mp he
  refine ⟨e', he', ?_⟩
  by_cases h : e'.1 = sid
  · right; rw [← hee]; simp [h]
  · left; rw [← hee]; simp [h]

lemma analyzeStepEligible_suppliers (db : DB) (a : Analysis) (item : OrderItemRec)
    (sid : Nat) :
    (analyzeStepEligible db a item sid).suppliers_involved =
      updateGroupEntry
        (if hasGroup a.suppliers_involved sid then a.suppliers_involved
         else a.suppliers_involved ++
           [(sid, { supplier := item.product.supplier, items := [], total_value := 0,
                    total_quantity := 0, estimated_shipping_days := 0 })])
        sid (fun g =>
          { g with
            items := g.items ++
              [{ order_item := item, product := item.product, quantity := item.quantity,
                 unit_price := item.price, total_price := item.price * (item.quantity : ℚ) }],
            total_value := g.total_value + item.price * (item.quantity : ℚ),
            total_quantity := g.total_quantity + item.quantity }) := by
  unfold analyzeStepEligible
  dsimp only
  repeat' split
  all_goals rfl

lemma analyzeStep_score_none (db : DB) (a : Analysis) (item : OrderItemRec)
    (ha : ∀ e ∈ a.suppliers_involved, e.2.hybrid_score = none) :
    ∀ e ∈ (analyzeStep db a item).suppliers_involved, e.2.hybrid_score = none := by
  intro e he
  unfold analyzeStep at he
  dsimp only at he
  by_cases helig : itemEligible item = true
  · rw [if_pos helig, analyzeStepEligible_suppliers] at he
    obtain ⟨e', he', heq⟩ := mem_updateGroupEntry he
    have hbase : e'.2.hybrid_score = none := by
      by_cases hg : hasGroup a.suppliers_involved (item.product.supplier_id.getD 0) = true
      · rw [if_pos hg] at he'
        exact ha e' he'
      · rw [if_neg hg] at he'
        rcases List.mem_append.mp he' with hmem | hmem
        · exact ha e' hmem
        · simp only [List.mem_singleton] at hmem
          rw [hmem]
    rcases heq with rfl | heq
    · exact hbase
    · rw [heq]
      exact hbase
  · rw [if_neg helig] at he
    exact ha e he

lemma analyze_score_none (db : DB) (o : OrderRec) :
    ∀ g ∈ analyzedGroups db o, g.hybrid_score = none := by
  have hfold : ∀ items : List OrderItemRec, ∀ a : Analysis,
      (∀ e ∈ a.suppliers_involved, e.2.hybrid_score = none) →
      ∀ e ∈ (items.foldl (analyzeStep db) a).suppliers_involved,
        e.2.hybrid_score = none := by
    intro items
    induction items with
    | nil => intro a ha; exact ha
    | cons i t ih =>
      intro a ha
      rw [List.foldl_cons]
      exact ih _ (analyzeStep_score_none db a i ha)
  intro g hg
  unfold analyzedGroups analyze_order_items at hg
  dsimp only at hg
  rw [List.map_map] at hg
  obtain ⟨e, he, rfl⟩ := List.mem_map.mp hg
  exact hfold o.items _ (fun e' he' => absurd he' (List.not_mem_nil e')) e he

lemma clearScore_eq_self {g : SupplierGroup} (h : g.hybrid_score = none) :
    clearScore g = g := by
  unfold clearScore
  cases g
  simp_all

/-- Claim C4: for every analyzed order, each multi-supplier strategy returns a
permutation of the order's supplier groups (no group is dropped), ordered
ascending by flat shipping cost under `MULTI_SUPPLIER_COST`, by estimated
shipping days `(min + max) / 2` under `MULTI_SUPPLIER_SPEED`, and by the
normalized hybrid score (each term 0 when its maximum is 0) under `HYBRID`
(for `HYBRID`, up to the `hybrid_score` bookkeeping key the sort attaches).
The nonnegativity hypotheses reflect that shipping costs and shipping days
are nonnegative quantities. -/
theorem claim_C4_execute_strategy_order :
    ∀ (db : DB) (o : OrderRec),
      (∀ g ∈ analyzedGroups db o,
        0 ≤ g.supplier.shipping_cost ∧
        0 ≤ g.supplier.shipping_time_min_days + g.supplier.shipping_time_max_days) →
      ((execute_routing_strategy (analyze_order_items db o) "MULTI_SUPPLIER_COST").Perm
          (analyzedGroups db o) ∧
       (execute_routing_strategy (analyze_order_items db o) "MULTI_SUPPLIER_COST").Pairwise
          (fun x y => x.supplier.shipping_cost ≤ y.supplier.shipping_cost)) ∧
      ((execute_routing_strategy (analyze_order_items db o) "MULTI_SUPPLIER_SPEED").Perm
          (analyzedGroups db o) ∧
       (execute_routing_strategy (analyze_order_items db o) "MULTI_SUPPLIER_SPEED").Pairwise
          (fun x y =>
            (x.supplier.shipping_time_min_days + x.supplier.shipping_time_max_days) / 2 ≤
            (y.supplier.shipping_time_min_days + y.supplier.shipping_time_max_days) / 2)) ∧
      (((execute_routing_strategy (analyze_order_items db o) "HYBRID").map clearScore).Perm
          (analyzedGroups db o) ∧
       (execute_routing_strategy (analyze_order_items db o) "HYBRID").Pairwise
          (fun x y => specHybridScore (analyzedGroups db o) x ≤
                      specHybridScore (analyzedGroups db o) y)) := by
  intro db o h
  have hc : ∀ g ∈ analyzedGroups db o, 0 ≤ g.supplier.shipping_cost :=
    fun g hg => (h g hg).1
  have hd : ∀ g ∈ analyzedGroups db o, 0 ≤ g.estimated_shipping_days := by
    intro g hg
    rw [analyzedGroups_estimated db o g hg]
    exact div_nonneg (h g hg).2 (by norm_num)
  have hexecC : execute_routing_strategy (analyze_order_items db o) "MULTI_SUPPLIER_COST" =
      route_by_cost (analyzedGroups db o) := rfl
  have hexecS : execute_routing_strategy (analyze_order_items db o) "MULTI_SUPPLIER_SPEED" =
      route_by_speed (analyzedGroups db o) := rfl
  have hexecH : execute_routing_strategy (analyze_order_items db o) "HYBRID" =
      route_hybrid (analyzedGroups db o) := rfl
  have hscored : ∀ x ∈ (analyzedGroups db o).map (fun g =>
      { g with hybrid_score := some (hybridScore (analyzedGroups db o) g) }),
      x.hybrid_score.getD 1 = specHybridScore (analyzedGroups db o) x := by
    intro x hx
    obtain ⟨g, hg, rfl⟩ := List.mem_map.mp hx
    exact hybridScore_eq_spec (analyzedGroups db o) g hc hd
  refine ⟨⟨?_, ?_⟩, ⟨?_, ?_⟩, ⟨?_, ?_⟩⟩
  · rw [hexecC]
    exact sortByKey_perm _ _
  · rw [hexecC]
    unfold route_by_cost
    exact sortByKey_pairwise (fun s : SupplierGroup => s.supplier.shipping_cost) _
  · rw [hexecS]
    exact sortByKey_perm _ _
  · rw [hexecS]
    unfold route_by_speed
    refine List.Pairwise.imp_of_mem ?_
      (sortByKey_pairwise (fun s : SupplierGroup => s.estimated_shipping_days)
        (analyzedGroups db o))
    intro x y hx hy hr
    have hx' := (sortByKey_perm (fun s : SupplierGroup => s.estimated_shipping_days)
      (analyzedGroups db o)).subset hx
    have hy' := (sortByKey_perm (fun s : SupplierGroup => s.estimated_shipping_days)
      (analyzedGroups db o)).subset hy
    rw [← analyzedGroups_estimated db o x hx', ← analyzedGroups_estimated db o y hy']
    exact hr
  · rw [hexecH]
    unfold route_hybrid
    dsimp only
    have h1 := (sortByKey_perm (fun s => s.hybrid_score.getD 1)
      ((analyzedGroups db o).map (fun g =>
        { g with hybrid_score := some (hybridScore (analyzedGroups db o) g) }))).map clearScore
    have h2 : ((analyzedGroups db o).map (fun g =>
        { g with hybrid_score := some (hybridScore (analyzedGroups db o) g) })).map clearScore =
        analyzedGroups db o := by
      rw [List.map_map]
      have h3 : ∀ g ∈ analyzedGroups db o,
          (clearScore ∘ fun g =>
            { g with hybrid_score := some (hybridScore (analyzedGroups db o) g) }) g =
          id g := by
        intro g hg
        exact clearScore_eq_self (analyze_score_none db o g hg)
      rw [List.map_congr_left h3, List.map_id]
    rw [h2] at h1
    exact h1
  · rw [hexecH]
    unfold route_hybrid
    dsimp only
    refine List.Pairwise.imp_of_mem ?_
      (sortByKey_pairwise (fun s : SupplierGroup => s.hybrid_score.getD 1) _)
    intro x y hx hy hr
    have hx' := (sortByKey_perm (fun s : SupplierGroup => s.hybrid_score.getD 1) _).subset hx
    have hy' := (sortByKey_perm (fun s : SupplierGroup => s.hybrid_score.getD 1) _).subset hy
    rw [← hscored x hx', ← hscored y hy']
    exact hr

/-- Witness for claim C4: the theorem applied to the concrete three-supplier
order 42 of `dbC2`, with the nonnegativity hypotheses checked by evaluation. -/
theorem claim_C4_execute_strategy_order_witness :
    ((execute_routing_strategy (analyze_order_items dbC2 order42) "MULTI_SUPPLIER_COST").Perm
        (analyzedGroups dbC2 order42) ∧
     (execute_routing_strategy (analyze_order_items dbC2 order42) "MULTI_SUPPLIER_COST").Pairwise
        (fun x y => x.supplier.shipping_cost ≤ y.supplier.shipping_cost)) ∧
    ((execute_routing_strategy (analyze_order_items dbC2 order42) "MULTI_SUPPLIER_SPEED").Perm
        (analyzedGroups dbC2 order42) ∧
     (execute_routing_strategy (analyze_order_items dbC2 order42) "MULTI_SUPPLIER_SPEED").Pairwise
        (fun x y =>
          (x.supplier.shipping_time_min_days + x.supplier.shipping_time_max_days) / 2 ≤
          (y.supplier.shipping_time_min_days + y.supplier.shipping_time_max_days) / 2)) ∧
    (((execute_routing_strategy (analyze_order_items dbC2 order42) "HYBRID").map clearScore).Perm
        (analyzedGroups dbC2 order42) ∧
     (execute_routing_strategy (analyze_order_items dbC2 order42) "HYBRID").Pairwise
        (fun x y => specHybridScore (analyzedGroups dbC2 order42) x ≤
                    specHybridScore (analyzedGroups dbC2 order42) y)) :=
  claim_C4_execute_strategy_order dbC2 order42 (by
    intro g hg
    norm_num [analyzedGroups, analyze_order_items, analyzeStep, analyzeStepEligible,
      itemEligible, supplierIdTruthy, hasGroup, updateGroupEntry, findSupplierProduct,
      dbC2, order42, mkItem, supA, supB, supC] at hg
    rcases hg with rfl | rfl | rfl <;> norm_num [supA, supB, supC])

/-- The common hybrid score of groups with identical cost `c` and days `d`. -/
def commonHybridScore (c d : ℚ) : ℚ :=
  (if 0 < c then (1 : ℚ) else 0) * 0.6 + (if 0 < d then (1 : ℚ) else 0) * 0.4

/-- A fourth demo supplier, with the same flat shipping cost as `supC`. -/
def supD : Supplier := ⟨4, "Delta Co", 5, 2, 4, none⟩

/-- Two supplier groups with identical shipping cost (5) and identical
estimated shipping days (3). -/
def g5a : SupplierGroup := ⟨supC, [], 10, 1, 3, none⟩

def g5b : SupplierGroup := ⟨supD, [], 20, 2, 3, none⟩

/-- Counterexample to claim C5: for two groups with identical positive
shipping cost and identical positive shipping days, the hybrid score of every
group is 1 (= 0.6·(5/5) + 0.4·(3/3)), not 0; the order is preserved, but the
claimed score value is wrong. -/
theorem claim_C5_counterexample :
    (∀ g ∈ [g5a, g5b], g.supplier.shipping_cost = 5 ∧ g.estimated_shipping_days = 3) ∧
    (route_hybrid [g5a, g5b]).map (fun g => g.hybrid_score) = [some 1, some 1] ∧
    some (1 : ℚ) ≠ some (0 : ℚ) := by
  refine ⟨by decide, ?_, by decide⟩
  norm_num [route_hybrid, hybridScore, maxList, sortByKey, g5a, g5b, supC, supD]

/-- Claim C5 (amended): when all supplier groups have identical shipping cost
`c` and identical estimated shipping days `d`, `_route_hybrid` gives every
group the same hybrid score — `0.6` if `c > 0` plus `0.4` if `d > 0`, which is
0 exactly when neither is positive — and returns the groups in their original
grouping order (the sort is stable). -/
theorem claim_C5_amended_hybrid_identical :
    ∀ (groups : List SupplierGroup) (c d : ℚ),
      (∀ g ∈ groups, g.supplier.shipping_cost = c ∧ g.estimated_shipping_days = d) →
      route_hybrid groups = groups.map (fun g =>
        { g with hybrid_score := some (commonHybridScore c d) }) := by
  intro groups c d h
  cases groups with
  | nil => rfl
  | cons g0 gs =>
    have hmaxc : maxList ((g0 :: gs).map (fun s => s.supplier.shipping_cost)) = c := by
      apply maxList_const _ c (by simp)
      intro x hx
      obtain ⟨y, hy, rfl⟩ := List.mem_map.mp hx
      exact (h y hy).1
    have hmaxd : maxList ((g0 :: gs).map (fun s => s.estimated_shipping_days)) = d := by
      apply maxList_const _ d (by simp)
      intro x hx
      obtain ⟨y, hy, rfl⟩ := List.mem_map.mp hx
      exact (h y hy).2
    have hscore : ∀ g ∈ g0 :: gs, hybridScore (g0 :: gs) g = commonHybridScore c d := by
      intro g hg
      unfold hybridScore commonHybridScore
      dsimp only
      rw [hmaxc, hmaxd, (h g hg).1, (h g hg).2]
      congr 1
      · by_cases hc : 0 < c
        · rw [if_pos hc, if_pos hc, div_self (ne_of_gt hc)]
        · rw [if_neg hc, if_neg hc]
      · by_cases hdp : 0 < d
        · rw [if_pos hdp, if_pos hdp, div_self (ne_of_gt hdp)]
        · rw [if_neg hdp, if_neg hdp]
    unfold route_hybrid
    dsimp only
    rw [List.map_congr_left (fun g hg =>
      congrArg (fun sc => { g with hybrid_score := some sc }) (hscore g hg))]
    apply sortByKey_const _ _ (commonHybridScore c d)
    intro a ha
    obtain ⟨g, hg, rfl⟩ := List.mem_map.mp ha
    rfl

/-- Witness for the amended claim C5: the theorem applied to the two concrete
groups `[g5a, g5b]` (cost 5, days 3), whose common hybrid score is 1. -/
theorem claim_C5_amended_hybrid_identical_witness :
    route_hybrid [g5a, g5b] = [g5a, g5b].map (fun g =>
      { g with hybrid_score := some (commonHybridScore 5 3) }) :=
  claim_C5_amended_hybrid_identical [g5a, g5b] 5 3 (by decide)

/-! Lemmas for claim C8: `get_routing_options` as a pure, score-sorted dry run. -/

lemma calculate_recommendation_score_bounds (strategy : String)
    (routing_result : List SupplierGroup) (analysis : Analysis) :
    0 ≤ calculate_recommendation_score strategy routing_result analysis ∧
    calculate_recommendation_score strategy routing_result analysis ≤ 100 := by
  unfold calculate_recommendation_score
  refine ⟨le_max_left 0 _, max_le (by norm_num) (min_le_left 100 _)⟩

lemma get_routing_options_some (db : DB) (oid : Nat) (o : OrderRec)
    (hf : findOrder db oid = some o) :
    get_routing_options db oid = getRoutingOptionsLoaded db oid o := by
  unfold get_routing_options
  rw [hf]

lemma getRoutingOptionsLoaded_empty (db : DB) (oid : Nat) (o : OrderRec)
    (h : (analyze_order_items db o).suppliers_involved.isEmpty = true) :
    getRoutingOptionsLoaded db oid o =
      (Except.ok (RoutingOptionsResult.noDropshipping oid), db) := by
  unfold getRoutingOptionsLoaded
  dsimp only
  rw [if_pos h]

lemma getRoutingOptionsLoaded_nonempty (db : DB) (oid : Nat) (o : OrderRec)
    (h : (analyze_order_items db o).suppliers_involved.isEmpty = false) :
    getRoutingOptionsLoaded db oid o =
      (Except.ok (RoutingOptionsResult.withOptions oid
        (sortedOptionsList (analyze_order_items db o))
        (((sortedOptionsList (analyze_order_items db o)).head?).map (fun e => e.1))), db) := by
  unfold getRoutingOptionsLoaded
  dsimp only
  rw [if_neg (by rw [h]; exact Bool.false_ne_true)]

lemma optionsList_keys (analysis : Analysis) :
    (optionsList analysis).map Prod.fst = applicableStrategies analysis := by
  unfold optionsList
  rw [List.map_map]
  exact List.map_id _

/-- Claim C8: `get_routing_options` mutates no state (the database it returns
is the one it was given), and on success for an order with dropshipping items
it evaluates exactly the applicable strategies (skipping `SINGLE_SUPPLIER`
exactly when more than one supplier is involved), assigns every option a
recommendation score within 0..100, and returns the options sorted descending
by that score. -/
theorem claim_C8_get_routing_options :
    ∀ (db : DB) (oid : Nat),
      (get_routing_options db oid).2 = db ∧
      (∀ (o : OrderRec) (opts : List (String × RoutingOptionEntry)) (rec : Option String),
        findOrder db oid = some o →
        (get_routing_options db oid).1 =
          Except.ok (RoutingOptionsResult.withOptions oid opts rec) →
        ((opts.map Prod.fst).Perm (applicableStrategies (analyze_order_items db o)) ∧
         (∀ e ∈ opts, 0 ≤ e.2.recommendation_score ∧ e.2.recommendation_score ≤ 100) ∧
         opts.Pairwise (fun x y =>
           y.2.recommendation_score ≤ x.2.recommendation_score))) := by
  intro db oid
  constructor
  · cases hf : findOrder db oid with
    | none => unfold get_routing_options; rw [hf]
    | some o =>
      rw [get_routing_options_some db oid o hf]
      by_cases hemp : (analyze_order_items db o).suppliers_involved.isEmpty = true
      · rw [getRoutingOptionsLoaded_empty db oid o hemp]
      · rw [getRoutingOptionsLoaded_nonempty db oid o (Bool.eq_false_iff.mpr hemp)]
  · intro o opts rec hf hok
    rw [get_routing_options_some db oid o hf] at hok
    by_cases hemp : (analyze_order_items db o).suppliers_involved.isEmpty = true
    · rw [getRoutingOptionsLoaded_empty db oid o hemp] at hok
      simp at hok
    · rw [getRoutingOptionsLoaded_nonempty db oid o (Bool.eq_false_iff.mpr hemp)] at hok
      simp only [Except.ok.injEq, RoutingOptionsResult.withOptions.injEq] at hok
      obtain ⟨-, hopts, -⟩ := hok
      subst hopts
      refine ⟨?_, ?_, ?_⟩
      · have hp := (List.perm_insertionSort
          (fun a b : String × RoutingOptionEntry =>
            b.2.recommendation_score ≤ a.2.recommendation_score)
          (optionsList (analyze_order_items db o))).map Prod.fst
        rw [optionsList_keys] at hp
        exact hp
      · intro e he
        have he' : e ∈ optionsList (analyze_order_items db o) :=
          (List.perm_insertionSort _ _).subset he
        obtain ⟨s, _, rfl⟩ := List.mem_map.mp he'
        exact calculate_recommendation_score_bounds s _ _
      · haveI : IsTotal (String × RoutingOptionEntry)
            (fun x y => y.2.recommendation_score ≤ x.2.recommendation_score) :=
          ⟨fun x y => le_total y.2.recommendation_score x.2.recommendation_score⟩
        haveI : IsTrans (String × RoutingOptionEntry)
            (fun x y => y.2.recommendation_score ≤ x.2.recommendation_score) :=
          ⟨fun _ _ _ hxy hyz => le_trans hyz hxy⟩
        exact List.sorted_insertionSort _ _

/-- A single-supplier order (one dropshipping item, value 100). -/
def order9 : OrderRec := ⟨9, [mkItem 100 supA], "pending", false⟩

/-- A database holding `order9`. -/
def dbC8 : DB :=
  { orders := [order9], supplier_products := [], dropshipping_orders := [],
    next_ds_id := 1 }

/-- The option entry `get_routing_options` computes for each strategy of
`order9` (they differ only in name and score). -/
def entryC8 (s : String) (score : ℤ) : RoutingOptionEntry :=
  { strategy_name := s, suppliers_count := 1,
    suppliers := [⟨1, "Alpha Supplies", 1, 100, 10, 3⟩],
    total_shipping_cost := 10, estimated_delivery_days := 3,
    recommendation_score := score }

/-- The options `get_routing_options` returns for `order9`, sorted descending
by recommendation score. -/
def optsC8 : List (String × RoutingOptionEntry) :=
  [("SINGLE_SUPPLIER", entryC8 "SINGLE_SUPPLIER" 80),
   ("HYBRID", entryC8 "HYBRID" 75),
   ("MULTI_SUPPLIER_COST", entryC8 "MULTI_SUPPLIER_COST" 70),
   ("MULTI_SUPPLIER_SPEED", entryC8 "MULTI_SUPPLIER_SPEED" 65)]

/-- Witness for claim C8: the theorem applied to the concrete single-supplier
order 9 of `dbC8`, whose four option entries are checked by evaluation. -/
theorem claim_C8_get_routing_options_witness :
    (optsC8.map Prod.fst).Perm (applicableStrategies (analyze_order_items dbC8 order9)) ∧
    (∀ e ∈ optsC8, 0 ≤ e.2.recommendation_score ∧ e.2.recommendation_score ≤ 100) ∧
    optsC8.Pairwise (fun x y =>
      y.2.recommendation_score ≤ x.2.recommendation_score) :=
  (claim_C8_get_routing_options dbC8 9).2 order9 optsC8 (some "SINGLE_SUPPLIER") rfl
    (by
      norm_num [get_routing_options, getRoutingOptionsLoaded, findOrder, dbC8, order9,
        analyze_order_items, analyzeStep, analyzeStepEligible, itemEligible,
        supplierIdTruthy, hasGroup, updateGroupEntry, findSupplierProduct, mkItem, supA,
        sortedOptionsList, optionsList, applicableStrategies, optionStrategies,
        mkRoutingOption, calculate_recommendation_score, execute_routing_strategy,
        route_by_cost, route_by_speed, route_hybrid, hybridScore, maxList, sortByKey,
        entryC8, optsC8]
      simp)

end HypeTotal
